import Mathlib

/-!
Verification of the Mori-Tanaka homogenization core of the homopy package
(`homopy/methods.py`).  The float arithmetic of the source is embedded as
exact field arithmetic; 6x6 Mandel ("normalized Voigt") matrices become
`Matrix (Fin 6) (Fin 6) F` and full 3x3x3x3 stiffness tensors become
`Fin 3 → Fin 3 → Fin 3 → Fin 3 → F`.  `np.linalg.inv` is embedded as the
executable `minv` below, which agrees with Mathlib's matrix inverse.

The `Tensor` base class (`homopy/tensor.py`) is not part of the sources at
hand; its conversion routines are modelled from the specification (Mandel
basis with the sqrt-2 normalization that preserves double contractions).
The square root of two is passed around as an explicit parameter `rt2` so
that the conversions live over an arbitrary field; all claims about the
real program instantiate `rt2 := Real.sqrt 2`.
-/

set_option maxRecDepth 2000
set_option maxHeartbeats 1000000

abbrev M66 (F : Type) := Matrix (Fin 6) (Fin 6) F

abbrev T4 (F : Type) := Fin 3 → Fin 3 → Fin 3 → Fin 3 → F

variable {F : Type} [Field F]

/-- Modelled from the spec: canonical basis vector e1 provided by the
`Tensor` base class. -/
def te1 : Fin 3 → F := fun i => if i = 0 then 1 else 0

/-- Modelled from the spec: canonical basis vector e2. -/
def te2 : Fin 3 → F := fun i => if i = 1 then 1 else 0

/-- Modelled from the spec: canonical basis vector e3. -/
def te3 : Fin 3 → F := fun i => if i = 2 then 1 else 0

/-- Modelled from the spec: dyadic product of two vectors (`diade` in the
`Tensor` base class). -/
def diade (a b : Fin 3 → F) : Matrix (Fin 3) (Fin 3) F := fun i j => a i * b j

/-- Modelled from the spec: the six normalized Mandel basis tensors, in the
ordering {11, 22, 33, 23, 13, 12}; the shear bases carry the factor
sqrt(2)/2 (`rt2/2`) that makes the basis orthonormal for the double
contraction. -/
def mbasis (rt2 : F) : Fin 6 → Matrix (Fin 3) (Fin 3) F := fun I =>
  if I = 0 then diade te1 te1
  else if I = 1 then diade te2 te2
  else if I = 2 then diade te3 te3
  else if I = 3 then (rt2 / 2) • (diade te2 te3 + diade te3 te2)
  else if I = 4 then (rt2 / 2) • (diade te1 te3 + diade te3 te1)
  else (rt2 / 2) • (diade te1 te2 + diade te2 te1)

/-- Modelled from the spec: `tensor2mandel`, the full-to-reduced conversion.
Entry (I, J) is the double contraction of the tensor with the I-th and J-th
Mandel basis tensors, which realizes the scaling contract of the spec
(shear-shear entries scaled by 2, normal-shear by sqrt 2) and silently
discards components not symmetric under the two minor swaps. -/
def tensor2mandel (rt2 : F) (T : T4 F) : M66 F := fun I J =>
  ∑ i, ∑ j, ∑ k, ∑ l, mbasis rt2 I i j * T i j k l * mbasis rt2 J k l

/-- Modelled from the spec: `mandel2tensor`, the reduced-to-full conversion
(inverse of `tensor2mandel` on minor-symmetric tensors). -/
def mandel2tensor (rt2 : F) (M : M66 F) : T4 F := fun i j k l =>
  ∑ I, ∑ J, M I J * mbasis rt2 I i j * mbasis rt2 J k l

/-- Modelled from the spec: `tensor_product` of the `Tensor` base class, the
Mandel matrix product (double contraction in reduced notation). -/
def tensor_product (A B : M66 F) : M66 F := A * B

/-- Executable embedding of `np.linalg.inv` on 6x6 matrices; agrees with
Mathlib's nonsingular inverse (see `minv_eq_inv`). -/
def minv (A : M66 F) : M66 F := (A.det)⁻¹ • A.adjugate

theorem minv_eq_inv (A : M66 F) : minv A = A⁻¹ := by
  rw [Matrix.inv_def, minv, Ring.inverse_eq_inv']

/-- Squared Frobenius norm of a full tensor (`np.linalg.norm(T)**2`);
comparisons `norm T < tol` of the source are embedded as
`frobSq T < tol^2`. -/
def frobSq (T : T4 F) : F := ∑ i, ∑ j, ∑ k, ∑ l, (T i j k l) ^ 2

/-- The full-form Eshelby tensor assembled by `MoriTanaka._get_eshelby`
(methods.py lines 131-183), with the matrix Poisson ratio `nu`, the squared
aspect ratio `a2 = a ** 2` and the value `g` of the transcendental shape
function as parameters.  Exactly the thirteen entries assigned by the source
are non-zero; every other entry is the `0` of `np.zeros`. -/
def eshelbyFull (nu a2 g : F) : T4 F := fun i j k l =>
  if i = 0 ∧ j = 0 ∧ k = 0 ∧ l = 0 then
    1 / (2 * (1 - nu)) *
      (1 - 2 * nu + (3 * a2 - 1) / (a2 - 1) - (1 - 2 * nu + 3 * a2 / (a2 - 1)) * g)
  else if (i = 1 ∧ j = 1 ∧ k = 1 ∧ l = 1) ∨ (i = 2 ∧ j = 2 ∧ k = 2 ∧ l = 2) then
    3 / (8 * (1 - nu)) * a2 / (a2 - 1) +
      1 / (4 * (1 - nu)) * (1 - 2 * nu - 9 / (4 * (a2 - 1))) * g
  else if (i = 1 ∧ j = 1 ∧ k = 2 ∧ l = 2) ∨ (i = 2 ∧ j = 2 ∧ k = 1 ∧ l = 1) then
    1 / (4 * (1 - nu)) *
      (a2 / (2 * (a2 - 1)) - (1 - 2 * nu + 3 / (4 * (a2 - 1))) * g)
  else if (i = 1 ∧ j = 1 ∧ k = 0 ∧ l = 0) ∨ (i = 2 ∧ j = 2 ∧ k = 0 ∧ l = 0) then
    -1 / (2 * (1 - nu)) * a2 / (a2 - 1) +
      1 / (4 * (1 - nu)) * (3 * a2 / (a2 - 1) - (1 - 2 * nu)) * g
  else if (i = 0 ∧ j = 0 ∧ k = 1 ∧ l = 1) ∨ (i = 0 ∧ j = 0 ∧ k = 2 ∧ l = 2) then
    -1 / (2 * (1 - nu)) * (1 - 2 * nu + 1 / (a2 - 1)) +
      1 / (2 * (1 - nu)) * (1 - 2 * nu + 3 / (2 * (a2 - 1))) * g
  else if (i = 1 ∧ j = 2 ∧ k = 1 ∧ l = 2) ∨ (i = 2 ∧ j = 1 ∧ k = 2 ∧ l = 1) then
    1 / (4 * (1 - nu)) *
      (a2 / (2 * (a2 - 1)) + (1 - 2 * nu - 3 / (4 * (a2 - 1))) * g)
  else if (i = 0 ∧ j = 1 ∧ k = 0 ∧ l = 1) ∨ (i = 0 ∧ j = 2 ∧ k = 0 ∧ l = 2) then
    1 / (4 * (1 - nu)) *
      (1 - 2 * nu - (a2 + 1) / (a2 - 1) -
        1 / 2 * (1 - 2 * nu - 3 * (a2 + 1) / (a2 - 1)) * g)
  else 0

/-- Modelled from the spec: `np.arccosh` on reals (the usual logarithmic
form, valid on the supported range `a > 1`). -/
noncomputable def arccoshR (a : ℝ) : ℝ := Real.log (a + Real.sqrt (a ^ 2 - 1))

/-- The shape function `g` of `_get_eshelby` (methods.py line 134):
`g = a/(a^2-1)^(3/2) * (a*sqrt(a^2-1) - arccosh a)`. -/
noncomputable def gshape (a : ℝ) : ℝ :=
  a / Real.sqrt ((a ^ 2 - 1) ^ 3) * (a * Real.sqrt (a ^ 2 - 1) - arccoshR a)

/-- `MoriTanaka._get_eshelby` with the default flag `return_dim = "66"`:
the full-form tensor converted to the reduced Mandel form.  `gfun` supplies
the value of the shape function (instantiated with `gshape` over the
reals). -/
def get_eshelby66 (rt2 : F) (gfun : F → F) (nu a : F) : M66 F :=
  tensor2mandel rt2 (eshelbyFull nu (a ^ 2) (gfun a))

/-- `MoriTanaka._get_eshelby` with its `return_dim` flag (methods.py lines
184-187): `"66"` returns the reduced form, `"3333"` the full form, and any
other flag falls through both branches, so the function returns `None`
(embedded as `Option`). -/
def get_eshelby_dim (rt2 : F) (gfun : F → F) (nu a : F) (return_dim : String) :
    Option (M66 F ⊕ T4 F) :=
  if return_dim = "66" then
    some (Sum.inl (tensor2mandel rt2 (eshelbyFull nu (a ^ 2) (gfun a))))
  else if return_dim = "3333" then
    some (Sum.inr (eshelbyFull nu (a ^ 2) (gfun a)))
  else none

/-- Single-inclusion path of `MoriTanaka`: `__init__` (lines 77-82) stores
`Cm`, `Cf`, `v_frac` and `eshelby66`, and `get_effective_stiffness` (lines
201-210) computes `Cm + v_frac * pol @ inv(v_frac*I + (1-v_frac)*A_inv)`
with `A_inv = I + eshelby66 @ (inv(Cm) @ pol)` and `pol = Cf - Cm`. -/
def get_effective_stiffness_single (rt2 : F) (gfun : F → F) (nu : F)
    (Cm Cf : M66 F) (v_frac a : F) : M66 F :=
  let eshelby66 := get_eshelby66 rt2 gfun nu a
  let Cm_inv := minv Cm
  let pol := Cf - Cm
  let A_inv := 1 + tensor_product eshelby66 (tensor_product Cm_inv pol)
  Cm + v_frac • tensor_product pol
    (minv (v_frac • (1 : M66 F) + (1 - v_frac) • A_inv))

/-- State stored by the multi-inclusion branch of `MoriTanaka.__init__`
(methods.py lines 84-107). -/
structure MTMulti (F : Type) where
  Cm : M66 F
  c_f : F
  pol_alpha : List (M66 F)
  A_f_alpha : List (M66 F)
  c_alpha : List F

/-- Multi-inclusion branch of `MoriTanaka.__init__` (lines 84-107): the
`assert` on the three list lengths is embedded as an `Option` guard (no
object is produced when it fires); otherwise the polarizations, strain
concentration tensors `A = inv(I + S @ inv(Cm) @ pol)` and relative volume
fractions `c_alpha = v_alpha / c_f` are computed and stored. -/
def init_mori_tanaka_multi (rt2 : F) (gfun : F → F) (nu : F) (Cm : M66 F)
    (fiber : List (M66 F)) (v_frac asp : List F) : Option (MTMulti F) :=
  if fiber.length = v_frac.length ∧ v_frac.length = asp.length then
    some
      { Cm := Cm
        c_f := v_frac.sum
        pol_alpha := fiber.map (fun Cf => Cf - Cm)
        A_f_alpha :=
          List.zipWith
            (fun Cf a =>
              minv (1 + tensor_product (get_eshelby66 rt2 gfun nu a)
                (tensor_product (minv Cm) (Cf - Cm))))
            fiber asp
        c_alpha := v_frac.map (fun v => v / v_frac.sum) }
  else none

/-- Multi-inclusion branch of `MoriTanaka.get_effective_stiffness` (lines
211-226): accumulates `A_ave` and `pol_A_ave` over the constituents and
returns `Cm + (c_f * pol_A_ave) @ inv(c_f * A_ave + (1-c_f)*I)`. -/
def get_effective_stiffness_multi (st : MTMulti F) : M66 F :=
  let A_ave := (List.zipWith (fun c A => c • A) st.c_alpha st.A_f_alpha).sum
  let pol_A_ave :=
    (List.zipWith (fun c pA => c • pA) st.c_alpha
      (List.zipWith (fun pol A => tensor_product pol A) st.pol_alpha st.A_f_alpha)).sum
  st.Cm + tensor_product (st.c_f • pol_A_ave)
    (minv (st.c_f • A_ave + (1 - st.c_f) • (1 : M66 F)))

/-- Kronecker delta (`np.eye(3)`). -/
def kron (i j : Fin 3) : F := if i = j then 1 else 0

/-- `MoriTanaka.get_orientation_average` (methods.py lines 258-313), with
each `np.einsum` translated literally into its index form. -/
def get_orientation_average (tensor : T4 F) (N2 : Matrix (Fin 3) (Fin 3) F)
    (N4 : T4 F) : T4 F :=
  let b1 := tensor 0 0 0 0 + tensor 1 1 1 1 - 2 * tensor 0 0 1 1 - 4 * tensor 0 1 0 1
  let b2 := tensor 0 0 1 1 - tensor 1 1 2 2
  let b3 := tensor 0 1 0 1 + 1 / 2 * (tensor 1 1 2 2 - tensor 1 1 1 1)
  let b4 := tensor 1 1 2 2
  let b5 := 1 / 2 * (tensor 1 1 1 1 - tensor 1 1 2 2)
  fun i j k l =>
    b1 * N4 i j k l +
    b2 * (N2 i j * kron k l + kron i j * N2 k l) +
    b3 * (N2 i k * kron l j + N2 i l * kron k j + kron k i * N2 j l + kron i l * N2 k j) +
    b4 * (kron i j * kron k l) +
    2 * b5 * (1 / 2) * (kron i k * kron l j + kron i l * kron k j)

/-- `MoriTanaka.is_symmetric` (methods.py lines 315-356) on a stored
full-form effective stiffness: the three pass/fail judgements printed by the
source, each comparing the Frobenius norm of `T - swap(T)` with `1e-3`
(embedded as squared norm against `(1/1000)^2`).  The function is total:
it only reports, it cannot fail. -/
def is_symmetric (T : T4 ℚ) : Bool × Bool × Bool :=
  let left_minor : T4 ℚ := fun i j k l => T j i k l
  let right_minor : T4 ℚ := fun i j k l => T i j l k
  let major : T4 ℚ := fun i j k l => T k l i j
  (decide (frobSq (fun i j k l => T i j k l - left_minor i j k l) < (1 / 1000) ^ 2),
   decide (frobSq (fun i j k l => T i j k l - right_minor i j k l) < (1 / 1000) ^ 2),
   decide (frobSq (fun i j k l => T i j k l - major i j k l) < (1 / 1000) ^ 2))

/-- The general transversely isotropic (about e1) fourth-order stiffness
tensor, in its five-parameter invariant representation.  It possesses both
minor symmetries and the major symmetry, and satisfies the in-plane
isotropy constraint `C_2323 = (C_2222 - C_2233)/2` by construction. -/
def tiTensor (lam mu alp bet gam : F) : T4 F := fun i j k l =>
  lam * kron i j * kron k l + mu * (kron i k * kron j l + kron i l * kron j k) +
  alp * (kron i 0 * kron j 0 * kron k l + kron i j * kron k 0 * kron l 0) +
  bet * (kron i 0 * kron k 0 * kron j l + kron i 0 * kron l 0 * kron j k +
         kron k 0 * kron i l * kron j 0 + kron l 0 * kron i k * kron j 0) +
  gam * (kron i 0 * kron j 0 * kron k 0 * kron l 0)

/-- The second-order orientation tensor of a perfectly aligned (e1)
fiber distribution: `N2 = diag(1, 0, 0)`. -/
def alignedN2 : Matrix (Fin 3) (Fin 3) F := fun i j => kron i 0 * kron j 0

/-- The fourth-order orientation tensor of a perfectly aligned (e1)
fiber distribution: non-zero (= 1) only at `N4_1111`. -/
def alignedN4 : T4 F := fun i j k l => kron i 0 * kron j 0 * kron k 0 * kron l 0

theorem kron_comm (i j : Fin 3) : (kron i j : F) = kron j i := by
  by_cases h : i = j <;> simp [kron, h, Ne.symm, eq_comm]

theorem tiT_0000 (lam mu alp bet gam : F) :
    tiTensor lam mu alp bet gam 0 0 0 0 = lam + 2 * mu + 2 * alp + 4 * bet + gam := by
  norm_num [tiTensor, kron]
  ring

theorem tiT_1111 (lam mu alp bet gam : F) :
    tiTensor lam mu alp bet gam 1 1 1 1 = lam + 2 * mu := by
  norm_num [tiTensor, kron, Fin.ext_iff]
  ring

theorem tiT_0011 (lam mu alp bet gam : F) :
    tiTensor lam mu alp bet gam 0 0 1 1 = lam + alp := by
  norm_num [tiTensor, kron, Fin.ext_iff]

theorem tiT_0101 (lam mu alp bet gam : F) :
    tiTensor lam mu alp bet gam 0 1 0 1 = mu + bet := by
  norm_num [tiTensor, kron, Fin.ext_iff]

theorem tiT_1122 (lam mu alp bet gam : F) :
    tiTensor lam mu alp bet gam 1 1 2 2 = lam := by
  norm_num [tiTensor, kron, Fin.ext_iff]

/-- C1: for a single inclusion type (fiber argument not a list), the
effective stiffness returned by `get_effective_stiffness` equals
`Cm + v*pol*inv(v*I + (1-v)*Ainv)` with `pol = Cf - Cm` and
`Ainv = I + S*(inv(Cm)*pol)`, `S` the reduced Eshelby tensor; stated with
Mathlib's matrix inverse, so it holds unconditionally (in particular
whenever the inverses exist). -/
theorem C1_single_inclusion_effective_stiffness (nu : ℝ) (Cm Cf : M66 ℝ)
    (v a : ℝ) :
    get_effective_stiffness_single (Real.sqrt 2) gshape nu Cm Cf v a =
      Cm + v • ((Cf - Cm) *
        (v • (1 : M66 ℝ) + (1 - v) •
          ((1 : M66 ℝ) + get_eshelby66 (Real.sqrt 2) gshape nu a *
            (Cm⁻¹ * (Cf - Cm))))⁻¹) := by
  simp only [get_effective_stiffness_single, tensor_product, minv_eq_inv]

/-- C4: the full-form Eshelby tensor produced by `_get_eshelby` has exactly
the component families S1111, S2222=S3333, S2233=S3322, S2211=S3311,
S1122=S1133, S2323=S3232, S1212=S1313 (thirteen entries), each the stated
closed-form rational function of `a^2`, `nu` and the shape function
`g(a)`, and every other tensor entry is zero.  (Stated for all real `nu`
and `a`, hence in particular on the admissible range `nu ∈ [0, 1/2)`,
`a > 1`.) -/
theorem C4_eshelby_components (nu a : ℝ) :
    (eshelbyFull nu (a ^ 2) (gshape a) 0 0 0 0 =
      1 / (2 * (1 - nu)) * (1 - 2 * nu + (3 * a ^ 2 - 1) / (a ^ 2 - 1) -
        (1 - 2 * nu + 3 * a ^ 2 / (a ^ 2 - 1)) * gshape a)) ∧
    (eshelbyFull nu (a ^ 2) (gshape a) 1 1 1 1 =
      3 / (8 * (1 - nu)) * a ^ 2 / (a ^ 2 - 1) +
        1 / (4 * (1 - nu)) * (1 - 2 * nu - 9 / (4 * (a ^ 2 - 1))) * gshape a) ∧
    (eshelbyFull nu (a ^ 2) (gshape a) 2 2 2 2 =
      eshelbyFull nu (a ^ 2) (gshape a) 1 1 1 1) ∧
    (eshelbyFull nu (a ^ 2) (gshape a) 1 1 2 2 =
      1 / (4 * (1 - nu)) * (a ^ 2 / (2 * (a ^ 2 - 1)) -
        (1 - 2 * nu + 3 / (4 * (a ^ 2 - 1))) * gshape a)) ∧
    (eshelbyFull nu (a ^ 2) (gshape a) 2 2 1 1 =
      eshelbyFull nu (a ^ 2) (gshape a) 1 1 2 2) ∧
    (eshelbyFull nu (a ^ 2) (gshape a) 1 1 0 0 =
      -1 / (2 * (1 - nu)) * a ^ 2 / (a ^ 2 - 1) +
        1 / (4 * (1 - nu)) * (3 * a ^ 2 / (a ^ 2 - 1) - (1 - 2 * nu)) * gshape a) ∧
    (eshelbyFull nu (a ^ 2) (gshape a) 2 2 0 0 =
      eshelbyFull nu (a ^ 2) (gshape a) 1 1 0 0) ∧
    (eshelbyFull nu (a ^ 2) (gshape a) 0 0 1 1 =
      -1 / (2 * (1 - nu)) * (1 - 2 * nu + 1 / (a ^ 2 - 1)) +
        1 / (2 * (1 - nu)) * (1 - 2 * nu + 3 / (2 * (a ^ 2 - 1))) * gshape a) ∧
    (eshelbyFull nu (a ^ 2) (gshape a) 0 0 2 2 =
      eshelbyFull nu (a ^ 2) (gshape a) 0 0 1 1) ∧
    (eshelbyFull nu (a ^ 2) (gshape a) 1 2 1 2 =
      1 / (4 * (1 - nu)) * (a ^ 2 / (2 * (a ^ 2 - 1)) +
        (1 - 2 * nu - 3 / (4 * (a ^ 2 - 1))) * gshape a)) ∧
    (eshelbyFull nu (a ^ 2) (gshape a) 2 1 2 1 =
      eshelbyFull nu (a ^ 2) (gshape a) 1 2 1 2) ∧
    (eshelbyFull nu (a ^ 2) (gshape a) 0 1 0 1 =
      1 / (4 * (1 - nu)) * (1 - 2 * nu - (a ^ 2 + 1) / (a ^ 2 - 1) -
        1 / 2 * (1 - 2 * nu - 3 * (a ^ 2 + 1) / (a ^ 2 - 1)) * gshape a)) ∧
    (eshelbyFull nu (a ^ 2) (gshape a) 0 2 0 2 =
      eshelbyFull nu (a ^ 2) (gshape a) 0 1 0 1) ∧
    (∀ i j k l, (i, j, k, l) ∉
        ([(0,0,0,0), (1,1,1,1), (2,2,2,2), (1,1,2,2), (2,2,1,1),
          (1,1,0,0), (2,2,0,0), (0,0,1,1), (0,0,2,2), (1,2,1,2),
          (2,1,2,1), (0,1,0,1), (0,2,0,2)] :
            List (Fin 3 × Fin 3 × Fin 3 × Fin 3)) →
      eshelbyFull nu (a ^ 2) (gshape a) i j k l = 0) := by
  refine ⟨?_, ?_, ?_, ?_, ?_, ?_, ?_, ?_, ?_, ?_, ?_, ?_, ?_, ?_⟩
  case _ => rfl
  case _ => rfl
  case _ => rfl
  case _ => rfl
  case _ => rfl
  case _ => rfl
  case _ => rfl
  case _ => rfl
  case _ => rfl
  case _ => rfl
  case _ => rfl
  case _ => rfl
  case _ => rfl
  case _ =>
    intro i j k l h
    fin_cases i <;> fin_cases j <;> fin_cases k <;> fin_cases l <;>
      first
        | exact absurd (by decide) h
        | norm_num [eshelbyFull, Fin.ext_iff]

/-- C5: for every full-form stiffness tensor, symmetric second-order
orientation tensor `N2` (orientation tensors are symmetric by the data
contract) and fourth-order orientation tensor `N4`, the orientation average
returned by `get_orientation_average` equals the Advani-Tucker combination
`b1*N4 + b2*(N2 x I + I x N2) + b3*(four-term symmetrization) + b4*(I x I)
+ b5*(d_ik d_jl + d_il d_jk)` with the five scalars taken from the input
tensor as stated in the claim. -/
theorem C5_orientation_average_formula (C : T4 ℝ)
    (N2 : Matrix (Fin 3) (Fin 3) ℝ) (N4 : T4 ℝ)
    (hN2 : ∀ p q, N2 p q = N2 q p) (i j k l : Fin 3) :
    get_orientation_average C N2 N4 i j k l =
      (C 0 0 0 0 + C 1 1 1 1 - 2 * C 0 0 1 1 - 4 * C 0 1 0 1) * N4 i j k l +
      (C 0 0 1 1 - C 1 1 2 2) * (N2 i j * kron k l + kron i j * N2 k l) +
      (C 0 1 0 1 + 1 / 2 * (C 1 1 2 2 - C 1 1 1 1)) *
        (N2 i k * kron j l + N2 i l * kron j k + kron i k * N2 j l +
          kron i l * N2 j k) +
      C 1 1 2 2 * (kron i j * kron k l) +
      1 / 2 * (C 1 1 1 1 - C 1 1 2 2) * (kron i k * kron j l + kron i l * kron j k) := by
  simp only [get_orientation_average]
  rw [kron_comm l j, kron_comm k j, kron_comm k i, hN2 k j]
  ring

/-- Witness for C5 at a concrete symmetric orientation tensor. -/
theorem C5_orientation_average_formula_witness :
    (∀ p q, (alignedN2 : Matrix (Fin 3) (Fin 3) ℝ) p q = alignedN2 q p) ∧
    get_orientation_average (fun _ _ _ _ => (1 : ℝ)) alignedN2 alignedN4 0 1 2 0 =
      ((1 : ℝ) + 1 - 2 * 1 - 4 * 1) * alignedN4 0 1 2 0 +
      (1 - 1) * (alignedN2 0 1 * kron 2 0 + kron 0 1 * alignedN2 2 0) +
      (1 + 1 / 2 * (1 - 1)) *
        (alignedN2 0 2 * kron 1 0 + alignedN2 0 0 * kron 1 2 +
          kron 0 2 * alignedN2 1 0 + kron 0 0 * alignedN2 1 2) +
      1 * (kron 0 1 * kron 2 0) +
      1 / 2 * (1 - 1) * (kron 0 2 * kron 1 0 + kron 0 0 * kron 1 2) := by
  have hsym : ∀ p q, (alignedN2 : Matrix (Fin 3) (Fin 3) ℝ) p q = alignedN2 q p := by
    intro p q
    simp only [alignedN2]
    ring
  exact ⟨hsym, C5_orientation_average_formula (fun _ _ _ _ => 1) alignedN2
    alignedN4 hsym 0 1 2 0⟩

/-- C6: averaging a transversely isotropic stiffness (general five-parameter
form about the e1 axis) over the perfectly aligned orientation distribution
`N2 = diag(1,0,0)`, `N4 = e1^(x4)` reproduces the input tensor. -/
theorem C6_aligned_average_identity (lam mu alp bet gam : ℝ) (i j k l : Fin 3) :
    get_orientation_average (tiTensor lam mu alp bet gam) alignedN2 alignedN4 i j k l =
      tiTensor lam mu alp bet gam i j k l := by
  simp only [get_orientation_average, alignedN2, alignedN4, tiT_0000, tiT_1111,
    tiT_0011, tiT_0101, tiT_1122]
  simp only [tiTensor]
  rw [kron_comm l j, kron_comm k j, kron_comm k i]
  ring

/-- C7: the multi-inclusion constructor produces no homogenizer object
(hence no effective stiffness) precisely when the three input lists differ
in length; with equal lengths the dimension-mismatch guard does not fire. -/
theorem C7_length_mismatch_guard (nu : ℝ) (Cm : M66 ℝ) (fiber : List (M66 ℝ))
    (v_frac asp : List ℝ) :
    init_mori_tanaka_multi (Real.sqrt 2) gshape nu Cm fiber v_frac asp = none ↔
      ¬(fiber.length = v_frac.length ∧ v_frac.length = asp.length) := by
  unfold init_mori_tanaka_multi
  split_ifs with h <;> simp [h]

/-- C9: `is_symmetric` judges, for a stored full-form effective stiffness
`T`, the Frobenius norm of `T - swap(T)` for each of the three symmetry
operations against the fixed tolerance 1e-3 (squared-norm encoding), and it
is a total function — it only reports, it never fails or blocks downstream
use. -/
theorem C9_symmetry_check (T : T4 ℚ) :
    ((is_symmetric T).1 = true ↔
      frobSq (fun i j k l => T i j k l - T j i k l) < (1 / 1000) ^ 2) ∧
    ((is_symmetric T).2.1 = true ↔
      frobSq (fun i j k l => T i j k l - T i j l k) < (1 / 1000) ^ 2) ∧
    ((is_symmetric T).2.2 = true ↔
      frobSq (fun i j k l => T i j k l - T k l i j) < (1 / 1000) ^ 2) := by
  refine ⟨?_, ?_, ?_⟩ <;> simp [is_symmetric]

/-- C10: `_get_eshelby` with flag `"66"` returns the reduced Mandel form,
with `"3333"` the full tensor, and with any other flag it falls through
both branches and returns `None` (no tensor, no error, no default). -/
theorem C10_eshelby_return_flag (nu a : ℝ) (d : String) :
    (get_eshelby_dim (Real.sqrt 2) gshape nu a "66" =
      some (Sum.inl (tensor2mandel (Real.sqrt 2)
        (eshelbyFull nu (a ^ 2) (gshape a))))) ∧
    (get_eshelby_dim (Real.sqrt 2) gshape nu a "3333" =
      some (Sum.inr (eshelbyFull nu (a ^ 2) (gshape a)))) ∧
    (d ≠ "66" → d ≠ "3333" →
      get_eshelby_dim (Real.sqrt 2) gshape nu a d = none) := by
  refine ⟨rfl, rfl, ?_⟩
  intro h1 h2
  unfold get_eshelby_dim
  rw [if_neg h1, if_neg h2]

/-- Witness for C10 at the concrete flag `"xy"`. -/
theorem C10_eshelby_return_flag_witness :
    ("xy" : String) ≠ "66" ∧ ("xy" : String) ≠ "3333" ∧
      get_eshelby_dim (Real.sqrt 2) gshape 0 2 "xy" = none :=
  ⟨by decide, by decide, (C10_eshelby_return_flag 0 2 "xy").2.2 (by decide) (by decide)⟩

theorem zipWith_ofFn {α β γ : Type} (f : α → β → γ) :
    ∀ (n : ℕ) (u : Fin n → α) (w : Fin n → β),
      List.zipWith f (List.ofFn u) (List.ofFn w) = List.ofFn (fun i => f (u i) (w i))
  | 0, _, _ => by simp
  | n + 1, u, w => by
    rw [List.ofFn_succ, List.ofFn_succ, List.ofFn_succ, List.zipWith_cons_cons,
      zipWith_ofFn f n]

/-- C2: for multiple inclusion types given as lists of N materials, volume
fractions and aspect ratios, the effective stiffness equals
`Cm + c_f*polA_ave*inv(c_f*A_ave + (1-c_f)*I)` with
`A_alpha = inv(I + S_alpha*inv(Cm)*pol_alpha)`, `c_f = sum of volume
fractions`, `c_alpha = v_alpha/c_f`, `A_ave` and `polA_ave` the
`c_alpha`-weighted sums.  Stated with Mathlib's matrix inverse, so it holds
unconditionally (in particular whenever the inverses exist). -/
theorem C2_multi_inclusion_effective_stiffness (nu : ℝ) (Cm : M66 ℝ) (N : ℕ)
    (Cf : Fin N → M66 ℝ) (v asp : Fin N → ℝ) :
    (init_mori_tanaka_multi (Real.sqrt 2) gshape nu Cm
        (List.ofFn Cf) (List.ofFn v) (List.ofFn asp)).map
      get_effective_stiffness_multi =
    some (Cm +
      ((∑ i, v i) • (∑ α, (v α / ∑ i, v i) • ((Cf α - Cm) *
          ((1 : M66 ℝ) + get_eshelby66 (Real.sqrt 2) gshape nu (asp α) *
            (Cm⁻¹ * (Cf α - Cm)))⁻¹))) *
      ((∑ i, v i) • (∑ α, (v α / ∑ i, v i) •
          ((1 : M66 ℝ) + get_eshelby66 (Real.sqrt 2) gshape nu (asp α) *
            (Cm⁻¹ * (Cf α - Cm)))⁻¹) +
        (1 - ∑ i, v i) • (1 : M66 ℝ))⁻¹) := by
  have hlen : (List.ofFn Cf).length = (List.ofFn v).length ∧
      (List.ofFn v).length = (List.ofFn asp).length := by
    simp
  simp only [init_mori_tanaka_multi, if_pos hlen, Option.map_some']
  simp only [get_effective_stiffness_multi, tensor_product, minv_eq_inv,
    List.map_ofFn, Function.comp, zipWith_ofFn, List.sum_ofFn]

theorem commute_nonsing_inv (A M : M66 ℝ) (hM : IsUnit M.det)
    (h : A * M = M * A) : A * M⁻¹ = M⁻¹ * A := by
  calc A * M⁻¹ = (M⁻¹ * M) * A * M⁻¹ := by
        rw [Matrix.nonsing_inv_mul M hM, one_mul]
    _ = M⁻¹ * (A * M) * M⁻¹ := by rw [Matrix.mul_assoc M⁻¹ M A, ← h, ← Matrix.mul_assoc]
    _ = M⁻¹ * A * (M * M⁻¹) := by rw [Matrix.mul_assoc, Matrix.mul_assoc, Matrix.mul_assoc]
    _ = M⁻¹ * A := by rw [Matrix.mul_nonsing_inv M hM, mul_one]

theorem mt_single_core (pol Ainv : M66 ℝ) (v : ℝ) (hA : IsUnit Ainv.det)
    (hM : IsUnit (v • (1 : M66 ℝ) + (1 - v) • Ainv).det) :
    (v • (pol * Ainv⁻¹)) * (v • Ainv⁻¹ + (1 - v) • (1 : M66 ℝ))⁻¹ =
      v • (pol * (v • (1 : M66 ℝ) + (1 - v) • Ainv)⁻¹) := by
  set A := Ainv⁻¹ with hAdef
  set M := v • (1 : M66 ℝ) + (1 - v) • Ainv with hMdef
  have hAAinv : A * Ainv = 1 := Matrix.nonsing_inv_mul Ainv hA
  have hAinvA : Ainv * A = 1 := Matrix.mul_nonsing_inv Ainv hA
  have hAM : A * M = v • A + (1 - v) • (1 : M66 ℝ) := by
    rw [hMdef, Matrix.mul_add, Matrix.mul_smul, Matrix.mul_smul, mul_one, hAAinv]
  have hMA : M * A = v • A + (1 - v) • (1 : M66 ℝ) := by
    rw [hMdef, Matrix.add_mul, Matrix.smul_mul, Matrix.smul_mul, one_mul, hAinvA]
  have hcomm : A * M = M * A := by rw [hAM, hMA]
  have hAinvinv : A⁻¹ = Ainv := Matrix.inv_eq_right_inv hAAinv
  have h1 : (v • A + (1 - v) • (1 : M66 ℝ))⁻¹ = M⁻¹ * Ainv := by
    rw [← hAM, Matrix.mul_inv_rev, hAinvinv]
  rw [h1, Matrix.smul_mul, Matrix.mul_assoc, ← Matrix.mul_assoc A M⁻¹ Ainv,
    commute_nonsing_inv A M hM hcomm, Matrix.mul_assoc, hAAinv, mul_one]

/-- C3: for every matrix material, fiber material, volume fraction and
aspect ratio for which the required inverses exist (and the volume fraction
is non-zero so that `c_alpha = v/v` is defined), the multi-inclusion path
on the singleton lists `[fiber]`, `[v]`, `[a]` yields exactly the same
effective stiffness as the single-inclusion path (exact equality, hence in
particular agreement within 1e-9). -/
theorem C3_singleton_multi_equals_single (nu : ℝ) (Cm Cf : M66 ℝ) (v a : ℝ)
    (hv : v ≠ 0)
    (hA : IsUnit ((1 : M66 ℝ) + get_eshelby66 (Real.sqrt 2) gshape nu a *
      (Cm⁻¹ * (Cf - Cm))).det)
    (hM : IsUnit ((v • (1 : M66 ℝ) + (1 - v) •
      ((1 : M66 ℝ) + get_eshelby66 (Real.sqrt 2) gshape nu a *
        (Cm⁻¹ * (Cf - Cm))))).det) :
    (init_mori_tanaka_multi (Real.sqrt 2) gshape nu Cm [Cf] [v] [a]).map
        get_effective_stiffness_multi =
      some (get_effective_stiffness_single (Real.sqrt 2) gshape nu Cm Cf v a) := by
  have hlen : ([Cf].length = [v].length ∧ [v].length = [a].length) := by simp
  simp only [init_mori_tanaka_multi, if_pos hlen, Option.map_some']
  simp only [get_effective_stiffness_multi, get_effective_stiffness_single,
    tensor_product, minv_eq_inv, List.map_cons, List.map_nil, List.zipWith_cons_cons,
    List.zipWith_nil_right, List.sum_cons, List.sum_nil, List.sum_singleton,
    add_zero, Option.some.injEq]
  simp only [div_self hv, one_smul]
  rw [mt_single_core (Cf - Cm)
    ((1 : M66 ℝ) + get_eshelby66 (Real.sqrt 2) gshape nu a * (Cm⁻¹ * (Cf - Cm)))
    v hA hM]

/-- Witness for C3 at the concrete input `Cm = Cf = I`, `v = 1/2`, `a = 2`,
`nu = 0`. -/
theorem C3_singleton_multi_equals_single_witness :
    ((1 : ℝ) / 2 ≠ 0) ∧
    IsUnit ((1 : M66 ℝ) + get_eshelby66 (Real.sqrt 2) gshape 0 2 *
      ((1 : M66 ℝ)⁻¹ * ((1 : M66 ℝ) - 1))).det ∧
    IsUnit (((1 : ℝ) / 2) • (1 : M66 ℝ) + (1 - (1 : ℝ) / 2) •
      ((1 : M66 ℝ) + get_eshelby66 (Real.sqrt 2) gshape 0 2 *
        ((1 : M66 ℝ)⁻¹ * ((1 : M66 ℝ) - 1)))).det ∧
    (init_mori_tanaka_multi (Real.sqrt 2) gshape 0 (1 : M66 ℝ)
        [(1 : M66 ℝ)] [(1 : ℝ) / 2] [(2 : ℝ)]).map
      get_effective_stiffness_multi =
      some (get_effective_stiffness_single (Real.sqrt 2) gshape 0 1 1 (1 / 2) 2) := by
  have hv : (1 : ℝ) / 2 ≠ 0 := by norm_num
  have hA : IsUnit ((1 : M66 ℝ) + get_eshelby66 (Real.sqrt 2) gshape 0 2 *
      ((1 : M66 ℝ)⁻¹ * ((1 : M66 ℝ) - 1))).det := by
    simp
  have h2 : ((1 : ℝ) / 2) • (1 : M66 ℝ) + (1 - (1 : ℝ) / 2) •
      ((1 : M66 ℝ) + get_eshelby66 (Real.sqrt 2) gshape 0 2 *
        ((1 : M66 ℝ)⁻¹ * ((1 : M66 ℝ) - 1))) = 1 := by
    simp only [sub_self, Matrix.mul_zero, mul_zero, add_zero, ← add_smul]
    rw [show ((1 : ℝ) / 2 + (1 - (1 : ℝ) / 2)) = 1 by norm_num, one_smul]
  have hM : IsUnit ((((1 : ℝ) / 2) • (1 : M66 ℝ) + (1 - (1 : ℝ) / 2) •
      ((1 : M66 ℝ) + get_eshelby66 (Real.sqrt 2) gshape 0 2 *
        ((1 : M66 ℝ)⁻¹ * ((1 : M66 ℝ) - 1)))).det) := by
    rw [h2, Matrix.det_one]
    exact isUnit_one
  exact ⟨hv, hA, hM, C3_singleton_multi_equals_single 0 1 1 (1 / 2) 2 hv hA hM⟩

theorem tensor2mandel_nested (rt2 : F) (T : T4 F) (I J : Fin 6) :
    tensor2mandel rt2 T I J =
      ∑ i, ∑ j, mbasis rt2 I i j * (∑ k, ∑ l, T i j k l * mbasis rt2 J k l) := by
  unfold tensor2mandel
  simp only [Finset.mul_sum, mul_assoc]

theorem bsumL_0 (rt2 : F) (f : Fin 3 → Fin 3 → F) :
    ∑ i, ∑ j, mbasis rt2 0 i j * f i j = f 0 0 := by
  simp [Fin.sum_univ_three, mbasis, diade, te1, te2, te3]

theorem bsumL_3 (rt2 : F) (f : Fin 3 → Fin 3 → F) :
    ∑ i, ∑ j, mbasis rt2 3 i j * f i j = rt2 / 2 * f 1 2 + rt2 / 2 * f 2 1 := by
  simp [Fin.sum_univ_three, mbasis, diade, te1, te2, te3, Matrix.smul_apply,
    Matrix.add_apply]

theorem bsumL_1 (rt2 : F) (f : Fin 3 → Fin 3 → F) :
    ∑ i, ∑ j, mbasis rt2 1 i j * f i j = f 1 1 := by
  simp [Fin.sum_univ_three, mbasis, diade, te1, te2, te3]

theorem bsumL_2 (rt2 : F) (f : Fin 3 → Fin 3 → F) :
    ∑ i, ∑ j, mbasis rt2 2 i j * f i j = f 2 2 := by
  simp [Fin.sum_univ_three, mbasis, diade, te1, te2, te3]

theorem bsumL_4 (rt2 : F) (f : Fin 3 → Fin 3 → F) :
    ∑ i, ∑ j, mbasis rt2 4 i j * f i j = rt2 / 2 * f 0 2 + rt2 / 2 * f 2 0 := by
  simp [Fin.sum_univ_three, mbasis, diade, te1, te2, te3, Matrix.smul_apply,
    Matrix.add_apply]

theorem bsumL_5 (rt2 : F) (f : Fin 3 → Fin 3 → F) :
    ∑ i, ∑ j, mbasis rt2 5 i j * f i j = rt2 / 2 * f 0 1 + rt2 / 2 * f 1 0 := by
  simp [Fin.sum_univ_three, mbasis, diade, te1, te2, te3, Matrix.smul_apply,
    Matrix.add_apply]

theorem bsumR_0 (rt2 : F) (f : Fin 3 → Fin 3 → F) :
    ∑ k, ∑ l, f k l * mbasis rt2 0 k l = f 0 0 := by
  simp [Fin.sum_univ_three, mbasis, diade, te1, te2, te3]

theorem bsumR_1 (rt2 : F) (f : Fin 3 → Fin 3 → F) :
    ∑ k, ∑ l, f k l * mbasis rt2 1 k l = f 1 1 := by
  simp [Fin.sum_univ_three, mbasis, diade, te1, te2, te3]

theorem bsumR_2 (rt2 : F) (f : Fin 3 → Fin 3 → F) :
    ∑ k, ∑ l, f k l * mbasis rt2 2 k l = f 2 2 := by
  simp [Fin.sum_univ_three, mbasis, diade, te1, te2, te3]

theorem bsumR_3 (rt2 : F) (f : Fin 3 → Fin 3 → F) :
    ∑ k, ∑ l, f k l * mbasis rt2 3 k l = f 1 2 * (rt2 / 2) + f 2 1 * (rt2 / 2) := by
  simp [Fin.sum_univ_three, mbasis, diade, te1, te2, te3, Matrix.smul_apply,
    Matrix.add_apply]

theorem bsumR_4 (rt2 : F) (f : Fin 3 → Fin 3 → F) :
    ∑ k, ∑ l, f k l * mbasis rt2 4 k l = f 0 2 * (rt2 / 2) + f 2 0 * (rt2 / 2) := by
  simp [Fin.sum_univ_three, mbasis, diade, te1, te2, te3, Matrix.smul_apply,
    Matrix.add_apply]

theorem bsumR_5 (rt2 : F) (f : Fin 3 → Fin 3 → F) :
    ∑ k, ∑ l, f k l * mbasis rt2 5 k l = f 0 1 * (rt2 / 2) + f 1 0 * (rt2 / 2) := by
  simp [Fin.sum_univ_three, mbasis, diade, te1, te2, te3, Matrix.smul_apply,
    Matrix.add_apply]
noncomputable def A0C : M66 ℝ := !![29/9, -7/9, -7/9, 0, 0, 0;
  -10/9, 5/6, 5/18, 0, 0, 0;
  -10/9, 5/18, 5/6, 0, 0, 0;
  0, 0, 0, 5/18, 0, 0;
  0, 0, 0, 0, -11/36, 0;
  0, 0, 0, 0, 0, -11/36]

noncomputable def B0C : M66 ℝ := !![-11/3, 1, 1, 0, 0, 0;
  3/2, -1/3, -1/3, 0, 0, 0;
  3/2, -1/3, -1/3, 0, 0, 0;
  0, 0, 0, 0, 0, 0;
  0, 0, 0, 0, 13/24, 0;
  0, 0, 0, 0, 0, 13/24]

theorem S66v00 (g : ℝ) :
    tensor2mandel (Real.sqrt 2) (eshelbyFull (1/4) (5/2) g) 0 0 = (29/9) + g * (-11/3) := by
  have hrt : Real.sqrt 2 * Real.sqrt 2 = 2 := Real.mul_self_sqrt (by norm_num)
  rw [tensor2mandel_nested, bsumL_0]
  simp only [bsumR_0]
  norm_num [eshelbyFull, Fin.ext_iff, hrt]
  try ring_nf
  try norm_num [hrt]
  try ring

theorem S66v01 (g : ℝ) :
    tensor2mandel (Real.sqrt 2) (eshelbyFull (1/4) (5/2) g) 0 1 = (-7/9) + g * 1 := by
  have hrt : Real.sqrt 2 * Real.sqrt 2 = 2 := Real.mul_self_sqrt (by norm_num)
  rw [tensor2mandel_nested, bsumL_0]
  simp only [bsumR_1]
  norm_num [eshelbyFull, Fin.ext_iff, hrt]
  try ring_nf
  try norm_num [hrt]
  try ring

theorem S66v02 (g : ℝ) :
    tensor2mandel (Real.sqrt 2) (eshelbyFull (1/4) (5/2) g) 0 2 = (-7/9) + g * 1 := by
  have hrt : Real.sqrt 2 * Real.sqrt 2 = 2 := Real.mul_self_sqrt (by norm_num)
  rw [tensor2mandel_nested, bsumL_0]
  simp only [bsumR_2]
  norm_num [eshelbyFull, Fin.ext_iff, hrt]
  try ring_nf
  try norm_num [hrt]
  try ring

theorem S66v03 (g : ℝ) :
    tensor2mandel (Real.sqrt 2) (eshelbyFull (1/4) (5/2) g) 0 3 = 0 := by
  have hrt : Real.sqrt 2 * Real.sqrt 2 = 2 := Real.mul_self_sqrt (by norm_num)
  rw [tensor2mandel_nested, bsumL_0]
  simp only [bsumR_3]
  norm_num [eshelbyFull, Fin.ext_iff, hrt]
  try ring_nf
  try norm_num [hrt]
  try ring

theorem S66v04 (g : ℝ) :
    tensor2mandel (Real.sqrt 2) (eshelbyFull (1/4) (5/2) g) 0 4 = 0 := by
  have hrt : Real.sqrt 2 * Real.sqrt 2 = 2 := Real.mul_self_sqrt (by norm_num)
  rw [tensor2mandel_nested, bsumL_0]
  simp only [bsumR_4]
  norm_num [eshelbyFull, Fin.ext_iff, hrt]
  try ring_nf
  try norm_num [hrt]
  try ring

theorem S66v05 (g : ℝ) :
    tensor2mandel (Real.sqrt 2) (eshelbyFull (1/4) (5/2) g) 0 5 = 0 := by
  have hrt : Real.sqrt 2 * Real.sqrt 2 = 2 := Real.mul_self_sqrt (by norm_num)
  rw [tensor2mandel_nested, bsumL_0]
  simp only [bsumR_5]
  norm_num [eshelbyFull, Fin.ext_iff, hrt]
  try ring_nf
  try norm_num [hrt]
  try ring

theorem S66v10 (g : ℝ) :
    tensor2mandel (Real.sqrt 2) (eshelbyFull (1/4) (5/2) g) 1 0 = (-10/9) + g * (3/2) := by
  have hrt : Real.sqrt 2 * Real.sqrt 2 = 2 := Real.mul_self_sqrt (by norm_num)
  rw [tensor2mandel_nested, bsumL_1]
  simp only [bsumR_0]
  norm_num [eshelbyFull, Fin.ext_iff, hrt]
  try ring_nf
  try norm_num [hrt]
  try ring

theorem S66v11 (g : ℝ) :
    tensor2mandel (Real.sqrt 2) (eshelbyFull (1/4) (5/2) g) 1 1 = (5/6) + g * (-1/3) := by
  have hrt : Real.sqrt 2 * Real.sqrt 2 = 2 := Real.mul_self_sqrt (by norm_num)
  rw [tensor2mandel_nested, bsumL_1]
  simp only [bsumR_1]
  norm_num [eshelbyFull, Fin.ext_iff, hrt]
  try ring_nf
  try norm_num [hrt]
  try ring

theorem S66v12 (g : ℝ) :
    tensor2mandel (Real.sqrt 2) (eshelbyFull (1/4) (5/2) g) 1 2 = (5/18) + g * (-1/3) := by
  have hrt : Real.sqrt 2 * Real.sqrt 2 = 2 := Real.mul_self_sqrt (by norm_num)
  rw [tensor2mandel_nested, bsumL_1]
  simp only [bsumR_2]
  norm_num [eshelbyFull, Fin.ext_iff, hrt]
  try ring_nf
  try norm_num [hrt]
  try ring

theorem S66v13 (g : ℝ) :
    tensor2mandel (Real.sqrt 2) (eshelbyFull (1/4) (5/2) g) 1 3 = 0 := by
  have hrt : Real.sqrt 2 * Real.sqrt 2 = 2 := Real.mul_self_sqrt (by norm_num)
  rw [tensor2mandel_nested, bsumL_1]
  simp only [bsumR_3]
  norm_num [eshelbyFull, Fin.ext_iff, hrt]
  try ring_nf
  try norm_num [hrt]
  try ring

theorem S66v14 (g : ℝ) :
    tensor2mandel (Real.sqrt 2) (eshelbyFull (1/4) (5/2) g) 1 4 = 0 := by
  have hrt : Real.sqrt 2 * Real.sqrt 2 = 2 := Real.mul_self_sqrt (by norm_num)
  rw [tensor2mandel_nested, bsumL_1]
  simp only [bsumR_4]
  norm_num [eshelbyFull, Fin.ext_iff, hrt]
  try ring_nf
  try norm_num [hrt]
  try ring

theorem S66v15 (g : ℝ) :
    tensor2mandel (Real.sqrt 2) (eshelbyFull (1/4) (5/2) g) 1 5 = 0 := by
  have hrt : Real.sqrt 2 * Real.sqrt 2 = 2 := Real.mul_self_sqrt (by norm_num)
  rw [tensor2mandel_nested, bsumL_1]
  simp only [bsumR_5]
  norm_num [eshelbyFull, Fin.ext_iff, hrt]
  try ring_nf
  try norm_num [hrt]
  try ring

theorem S66v20 (g : ℝ) :
    tensor2mandel (Real.sqrt 2) (eshelbyFull (1/4) (5/2) g) 2 0 = (-10/9) + g * (3/2) := by
  have hrt : Real.sqrt 2 * Real.sqrt 2 = 2 := Real.mul_self_sqrt (by norm_num)
  rw [tensor2mandel_nested, bsumL_2]
  simp only [bsumR_0]
  norm_num [eshelbyFull, Fin.ext_iff, hrt]
  try ring_nf
  try norm_num [hrt]
  try ring

theorem S66v21 (g : ℝ) :
    tensor2mandel (Real.sqrt 2) (eshelbyFull (1/4) (5/2) g) 2 1 = (5/18) + g * (-1/3) := by
  have hrt : Real.sqrt 2 * Real.sqrt 2 = 2 := Real.mul_self_sqrt (by norm_num)
  rw [tensor2mandel_nested, bsumL_2]
  simp only [bsumR_1]
  norm_num [eshelbyFull, Fin.ext_iff, hrt]
  try ring_nf
  try norm_num [hrt]
  try ring

theorem S66v22 (g : ℝ) :
    tensor2mandel (Real.sqrt 2) (eshelbyFull (1/4) (5/2) g) 2 2 = (5/6) + g * (-1/3) := by
  have hrt : Real.sqrt 2 * Real.sqrt 2 = 2 := Real.mul_self_sqrt (by norm_num)
  rw [tensor2mandel_nested, bsumL_2]
  simp only [bsumR_2]
  norm_num [eshelbyFull, Fin.ext_iff, hrt]
  try ring_nf
  try norm_num [hrt]
  try ring

theorem S66v23 (g : ℝ) :
    tensor2mandel (Real.sqrt 2) (eshelbyFull (1/4) (5/2) g) 2 3 = 0 := by
  have hrt : Real.sqrt 2 * Real.sqrt 2 = 2 := Real.mul_self_sqrt (by norm_num)
  rw [tensor2mandel_nested, bsumL_2]
  simp only [bsumR_3]
  norm_num [eshelbyFull, Fin.ext_iff, hrt]
  try ring_nf
  try norm_num [hrt]
  try ring

theorem S66v24 (g : ℝ) :
    tensor2mandel (Real.sqrt 2) (eshelbyFull (1/4) (5/2) g) 2 4 = 0 := by
  have hrt : Real.sqrt 2 * Real.sqrt 2 = 2 := Real.mul_self_sqrt (by norm_num)
  rw [tensor2mandel_nested, bsumL_2]
  simp only [bsumR_4]
  norm_num [eshelbyFull, Fin.ext_iff, hrt]
  try ring_nf
  try norm_num [hrt]
  try ring

theorem S66v25 (g : ℝ) :
    tensor2mandel (Real.sqrt 2) (eshelbyFull (1/4) (5/2) g) 2 5 = 0 := by
  have hrt : Real.sqrt 2 * Real.sqrt 2 = 2 := Real.mul_self_sqrt (by norm_num)
  rw [tensor2mandel_nested, bsumL_2]
  simp only [bsumR_5]
  norm_num [eshelbyFull, Fin.ext_iff, hrt]
  try ring_nf
  try norm_num [hrt]
  try ring

theorem S66v30 (g : ℝ) :
    tensor2mandel (Real.sqrt 2) (eshelbyFull (1/4) (5/2) g) 3 0 = 0 := by
  have hrt : Real.sqrt 2 * Real.sqrt 2 = 2 := Real.mul_self_sqrt (by norm_num)
  rw [tensor2mandel_nested, bsumL_3]
  simp only [bsumR_0]
  norm_num [eshelbyFull, Fin.ext_iff, hrt]
  try ring_nf
  try norm_num [hrt]
  try ring

theorem S66v31 (g : ℝ) :
    tensor2mandel (Real.sqrt 2) (eshelbyFull (1/4) (5/2) g) 3 1 = 0 := by
  have hrt : Real.sqrt 2 * Real.sqrt 2 = 2 := Real.mul_self_sqrt (by norm_num)
  rw [tensor2mandel_nested, bsumL_3]
  simp only [bsumR_1]
  norm_num [eshelbyFull, Fin.ext_iff, hrt]
  try ring_nf
  try norm_num [hrt]
  try ring

theorem S66v32 (g : ℝ) :
    tensor2mandel (Real.sqrt 2) (eshelbyFull (1/4) (5/2) g) 3 2 = 0 := by
  have hrt : Real.sqrt 2 * Real.sqrt 2 = 2 := Real.mul_self_sqrt (by norm_num)
  rw [tensor2mandel_nested, bsumL_3]
  simp only [bsumR_2]
  norm_num [eshelbyFull, Fin.ext_iff, hrt]
  try ring_nf
  try norm_num [hrt]
  try ring

theorem S66v33 (g : ℝ) :
    tensor2mandel (Real.sqrt 2) (eshelbyFull (1/4) (5/2) g) 3 3 = (5/18) := by
  have hrt : Real.sqrt 2 * Real.sqrt 2 = 2 := Real.mul_self_sqrt (by norm_num)
  rw [tensor2mandel_nested, bsumL_3]
  simp only [bsumR_3]
  norm_num [eshelbyFull, Fin.ext_iff, hrt]
  try ring_nf
  try norm_num [hrt]
  try ring

theorem S66v34 (g : ℝ) :
    tensor2mandel (Real.sqrt 2) (eshelbyFull (1/4) (5/2) g) 3 4 = 0 := by
  have hrt : Real.sqrt 2 * Real.sqrt 2 = 2 := Real.mul_self_sqrt (by norm_num)
  rw [tensor2mandel_nested, bsumL_3]
  simp only [bsumR_4]
  norm_num [eshelbyFull, Fin.ext_iff, hrt]
  try ring_nf
  try norm_num [hrt]
  try ring

theorem S66v35 (g : ℝ) :
    tensor2mandel (Real.sqrt 2) (eshelbyFull (1/4) (5/2) g) 3 5 = 0 := by
  have hrt : Real.sqrt 2 * Real.sqrt 2 = 2 := Real.mul_self_sqrt (by norm_num)
  rw [tensor2mandel_nested, bsumL_3]
  simp only [bsumR_5]
  norm_num [eshelbyFull, Fin.ext_iff, hrt]
  try ring_nf
  try norm_num [hrt]
  try ring

theorem S66v40 (g : ℝ) :
    tensor2mandel (Real.sqrt 2) (eshelbyFull (1/4) (5/2) g) 4 0 = 0 := by
  have hrt : Real.sqrt 2 * Real.sqrt 2 = 2 := Real.mul_self_sqrt (by norm_num)
  rw [tensor2mandel_nested, bsumL_4]
  simp only [bsumR_0]
  norm_num [eshelbyFull, Fin.ext_iff, hrt]
  try ring_nf
  try norm_num [hrt]
  try ring

theorem S66v41 (g : ℝ) :
    tensor2mandel (Real.sqrt 2) (eshelbyFull (1/4) (5/2) g) 4 1 = 0 := by
  have hrt : Real.sqrt 2 * Real.sqrt 2 = 2 := Real.mul_self_sqrt (by norm_num)
  rw [tensor2mandel_nested, bsumL_4]
  simp only [bsumR_1]
  norm_num [eshelbyFull, Fin.ext_iff, hrt]
  try ring_nf
  try norm_num [hrt]
  try ring

theorem S66v42 (g : ℝ) :
    tensor2mandel (Real.sqrt 2) (eshelbyFull (1/4) (5/2) g) 4 2 = 0 := by
  have hrt : Real.sqrt 2 * Real.sqrt 2 = 2 := Real.mul_self_sqrt (by norm_num)
  rw [tensor2mandel_nested, bsumL_4]
  simp only [bsumR_2]
  norm_num [eshelbyFull, Fin.ext_iff, hrt]
  try ring_nf
  try norm_num [hrt]
  try ring

theorem S66v43 (g : ℝ) :
    tensor2mandel (Real.sqrt 2) (eshelbyFull (1/4) (5/2) g) 4 3 = 0 := by
  have hrt : Real.sqrt 2 * Real.sqrt 2 = 2 := Real.mul_self_sqrt (by norm_num)
  rw [tensor2mandel_nested, bsumL_4]
  simp only [bsumR_3]
  norm_num [eshelbyFull, Fin.ext_iff, hrt]
  try ring_nf
  try norm_num [hrt]
  try ring

theorem S66v44 (g : ℝ) :
    tensor2mandel (Real.sqrt 2) (eshelbyFull (1/4) (5/2) g) 4 4 = (-11/36) + g * (13/24) := by
  have hrt : Real.sqrt 2 * Real.sqrt 2 = 2 := Real.mul_self_sqrt (by norm_num)
  rw [tensor2mandel_nested, bsumL_4]
  simp only [bsumR_4]
  norm_num [eshelbyFull, Fin.ext_iff, hrt]
  try ring_nf
  try norm_num [hrt]
  try ring

theorem S66v45 (g : ℝ) :
    tensor2mandel (Real.sqrt 2) (eshelbyFull (1/4) (5/2) g) 4 5 = 0 := by
  have hrt : Real.sqrt 2 * Real.sqrt 2 = 2 := Real.mul_self_sqrt (by norm_num)
  rw [tensor2mandel_nested, bsumL_4]
  simp only [bsumR_5]
  norm_num [eshelbyFull, Fin.ext_iff, hrt]
  try ring_nf
  try norm_num [hrt]
  try ring

theorem S66v50 (g : ℝ) :
    tensor2mandel (Real.sqrt 2) (eshelbyFull (1/4) (5/2) g) 5 0 = 0 := by
  have hrt : Real.sqrt 2 * Real.sqrt 2 = 2 := Real.mul_self_sqrt (by norm_num)
  rw [tensor2mandel_nested, bsumL_5]
  simp only [bsumR_0]
  norm_num [eshelbyFull, Fin.ext_iff, hrt]
  try ring_nf
  try norm_num [hrt]
  try ring

theorem S66v51 (g : ℝ) :
    tensor2mandel (Real.sqrt 2) (eshelbyFull (1/4) (5/2) g) 5 1 = 0 := by
  have hrt : Real.sqrt 2 * Real.sqrt 2 = 2 := Real.mul_self_sqrt (by norm_num)
  rw [tensor2mandel_nested, bsumL_5]
  simp only [bsumR_1]
  norm_num [eshelbyFull, Fin.ext_iff, hrt]
  try ring_nf
  try norm_num [hrt]
  try ring

theorem S66v52 (g : ℝ) :
    tensor2mandel (Real.sqrt 2) (eshelbyFull (1/4) (5/2) g) 5 2 = 0 := by
  have hrt : Real.sqrt 2 * Real.sqrt 2 = 2 := Real.mul_self_sqrt (by norm_num)
  rw [tensor2mandel_nested, bsumL_5]
  simp only [bsumR_2]
  norm_num [eshelbyFull, Fin.ext_iff, hrt]
  try ring_nf
  try norm_num [hrt]
  try ring

theorem S66v53 (g : ℝ) :
    tensor2mandel (Real.sqrt 2) (eshelbyFull (1/4) (5/2) g) 5 3 = 0 := by
  have hrt : Real.sqrt 2 * Real.sqrt 2 = 2 := Real.mul_self_sqrt (by norm_num)
  rw [tensor2mandel_nested, bsumL_5]
  simp only [bsumR_3]
  norm_num [eshelbyFull, Fin.ext_iff, hrt]
  try ring_nf
  try norm_num [hrt]
  try ring

theorem S66v54 (g : ℝ) :
    tensor2mandel (Real.sqrt 2) (eshelbyFull (1/4) (5/2) g) 5 4 = 0 := by
  have hrt : Real.sqrt 2 * Real.sqrt 2 = 2 := Real.mul_self_sqrt (by norm_num)
  rw [tensor2mandel_nested, bsumL_5]
  simp only [bsumR_4]
  norm_num [eshelbyFull, Fin.ext_iff, hrt]
  try ring_nf
  try norm_num [hrt]
  try ring

theorem S66v55 (g : ℝ) :
    tensor2mandel (Real.sqrt 2) (eshelbyFull (1/4) (5/2) g) 5 5 = (-11/36) + g * (13/24) := by
  have hrt : Real.sqrt 2 * Real.sqrt 2 = 2 := Real.mul_self_sqrt (by norm_num)
  rw [tensor2mandel_nested, bsumL_5]
  simp only [bsumR_5]
  norm_num [eshelbyFull, Fin.ext_iff, hrt]
  try ring_nf
  try norm_num [hrt]
  try ring

theorem S66_decomp (g : ℝ) :
    tensor2mandel (Real.sqrt 2) (eshelbyFull (1/4) (5/2) g) = A0C + g • B0C := by
  ext i j
  fin_cases i <;> fin_cases j
  · exact (S66v00 g).trans (by norm_num [A0C, B0C, Matrix.add_apply, Matrix.smul_apply]; try ring)
  · exact (S66v01 g).trans (by norm_num [A0C, B0C, Matrix.add_apply, Matrix.smul_apply]; try ring)
  · exact (S66v02 g).trans (by norm_num [A0C, B0C, Matrix.add_apply, Matrix.smul_apply]; try ring)
  · exact (S66v03 g).trans (by norm_num [A0C, B0C, Matrix.add_apply, Matrix.smul_apply]; try ring)
  · exact (S66v04 g).trans (by norm_num [A0C, B0C, Matrix.add_apply, Matrix.smul_apply]; try ring)
  · exact (S66v05 g).trans (by norm_num [A0C, B0C, Matrix.add_apply, Matrix.smul_apply]; try ring)
  · exact (S66v10 g).trans (by norm_num [A0C, B0C, Matrix.add_apply, Matrix.smul_apply]; try ring)
  · exact (S66v11 g).trans (by norm_num [A0C, B0C, Matrix.add_apply, Matrix.smul_apply]; try ring)
  · exact (S66v12 g).trans (by norm_num [A0C, B0C, Matrix.add_apply, Matrix.smul_apply]; try ring)
  · exact (S66v13 g).trans (by norm_num [A0C, B0C, Matrix.add_apply, Matrix.smul_apply]; try ring)
  · exact (S66v14 g).trans (by norm_num [A0C, B0C, Matrix.add_apply, Matrix.smul_apply]; try ring)
  · exact (S66v15 g).trans (by norm_num [A0C, B0C, Matrix.add_apply, Matrix.smul_apply]; try ring)
  · exact (S66v20 g).trans (by norm_num [A0C, B0C, Matrix.add_apply, Matrix.smul_apply]; try ring)
  · exact (S66v21 g).trans (by norm_num [A0C, B0C, Matrix.add_apply, Matrix.smul_apply]; try ring)
  · exact (S66v22 g).trans (by norm_num [A0C, B0C, Matrix.add_apply, Matrix.smul_apply]; try ring)
  · exact (S66v23 g).trans (by norm_num [A0C, B0C, Matrix.add_apply, Matrix.smul_apply]; try ring)
  · exact (S66v24 g).trans (by norm_num [A0C, B0C, Matrix.add_apply, Matrix.smul_apply]; try ring)
  · exact (S66v25 g).trans (by norm_num [A0C, B0C, Matrix.add_apply, Matrix.smul_apply]; try ring)
  · exact (S66v30 g).trans (by norm_num [A0C, B0C, Matrix.add_apply, Matrix.smul_apply]; try ring)
  · exact (S66v31 g).trans (by norm_num [A0C, B0C, Matrix.add_apply, Matrix.smul_apply]; try ring)
  · exact (S66v32 g).trans (by norm_num [A0C, B0C, Matrix.add_apply, Matrix.smul_apply]; try ring)
  · exact (S66v33 g).trans (by norm_num [A0C, B0C, Matrix.add_apply, Matrix.smul_apply]; try ring)
  · exact (S66v34 g).trans (by norm_num [A0C, B0C, Matrix.add_apply, Matrix.smul_apply]; try ring)
  · exact (S66v35 g).trans (by norm_num [A0C, B0C, Matrix.add_apply, Matrix.smul_apply]; try ring)
  · exact (S66v40 g).trans (by norm_num [A0C, B0C, Matrix.add_apply, Matrix.smul_apply]; try ring)
  · exact (S66v41 g).trans (by norm_num [A0C, B0C, Matrix.add_apply, Matrix.smul_apply]; try ring)
  · exact (S66v42 g).trans (by norm_num [A0C, B0C, Matrix.add_apply, Matrix.smul_apply]; try ring)
  · exact (S66v43 g).trans (by norm_num [A0C, B0C, Matrix.add_apply, Matrix.smul_apply]; try ring)
  · exact (S66v44 g).trans (by norm_num [A0C, B0C, Matrix.add_apply, Matrix.smul_apply]; try ring)
  · exact (S66v45 g).trans (by norm_num [A0C, B0C, Matrix.add_apply, Matrix.smul_apply]; try ring)
  · exact (S66v50 g).trans (by norm_num [A0C, B0C, Matrix.add_apply, Matrix.smul_apply]; try ring)
  · exact (S66v51 g).trans (by norm_num [A0C, B0C, Matrix.add_apply, Matrix.smul_apply]; try ring)
  · exact (S66v52 g).trans (by norm_num [A0C, B0C, Matrix.add_apply, Matrix.smul_apply]; try ring)
  · exact (S66v53 g).trans (by norm_num [A0C, B0C, Matrix.add_apply, Matrix.smul_apply]; try ring)
  · exact (S66v54 g).trans (by norm_num [A0C, B0C, Matrix.add_apply, Matrix.smul_apply]; try ring)
  · exact (S66v55 g).trans (by norm_num [A0C, B0C, Matrix.add_apply, Matrix.smul_apply]; try ring)

noncomputable def CmC : M66 ℝ := !![1, 0, 0, 0, 0, 0;
  0, 1, 0, 1/2, 0, 0;
  0, 0, 1, 0, 0, 0;
  0, 1/2, 0, 1, 0, 0;
  0, 0, 0, 0, 1, 0;
  0, 0, 0, 0, 0, 1]

noncomputable def CfC : M66 ℝ := !![1, 0, 0, 0, 0, 0;
  0, 5, -2, 11/2, 0, 0;
  0, -2, 1, -4, 0, 0;
  0, 11/2, -4, 5, 0, 0;
  0, 0, 0, 0, 1, 0;
  0, 0, 0, 0, 0, 1]

noncomputable def CmInvC : M66 ℝ := !![1, 0, 0, 0, 0, 0;
  0, 4/3, 0, -2/3, 0, 0;
  0, 0, 1, 0, 0, 0;
  0, -2/3, 0, 4/3, 0, 0;
  0, 0, 0, 0, 1, 0;
  0, 0, 0, 0, 0, 1]

noncomputable def polC : M66 ℝ := !![0, 0, 0, 0, 0, 0;
  0, 4, -2, 5, 0, 0;
  0, -2, 0, -4, 0, 0;
  0, 5, -4, 4, 0, 0;
  0, 0, 0, 0, 0, 0;
  0, 0, 0, 0, 0, 0]

noncomputable def WC : M66 ℝ := !![0, 0, 0, 0, 0, 0;
  0, 2, 0, 4, 0, 0;
  0, -2, 0, -4, 0, 0;
  0, 4, -4, 2, 0, 0;
  0, 0, 0, 0, 0, 0;
  0, 0, 0, 0, 0, 0]

noncomputable def KC : M66 ℝ := !![0, 0, 0, 0, 0, 0;
  0, 10/9, 0, 20/9, 0, 0;
  0, -10/9, 0, -20/9, 0, 0;
  0, 10/9, -10/9, 5/9, 0, 0;
  0, 0, 0, 0, 0, 0;
  0, 0, 0, 0, 0, 0]

noncomputable def MC : M66 ℝ := !![1, 0, 0, 0, 0, 0;
  0, 14/9, 0, 10/9, 0, 0;
  0, -5/9, 1, -10/9, 0, 0;
  0, 5/9, -5/9, 23/18, 0, 0;
  0, 0, 0, 0, 1, 0;
  0, 0, 0, 0, 0, 1]

noncomputable def XC : M66 ℝ := !![1, 0, 0, 0, 0, 0;
  0, 107/122, -50/61, -90/61, 0, 0;
  0, 15/122, 111/61, 90/61, 0, 0;
  0, -20/61, 70/61, 126/61, 0, 0;
  0, 0, 0, 0, 1, 0;
  0, 0, 0, 0, 0, 1]

noncomputable def polXC : M66 ℝ := !![0, 0, 0, 0, 0, 0;
  0, 99/61, -72/61, 90/61, 0, 0;
  0, -27/61, -180/61, -324/61, 0, 0;
  0, 315/122, -414/61, -306/61, 0, 0;
  0, 0, 0, 0, 0, 0;
  0, 0, 0, 0, 0, 0]

noncomputable def EC : M66 ℝ := !![1, 0, 0, 0, 0, 0;
  0, 221/122, -36/61, 151/122, 0, 0;
  0, -27/122, -29/61, -162/61, 0, 0;
  0, 437/244, -207/61, -92/61, 0, 0;
  0, 0, 0, 0, 1, 0;
  0, 0, 0, 0, 0, 1]

theorem hCmInv : CmC * CmInvC = 1 := by
  ext i j
  fin_cases i <;> fin_cases j <;>
    norm_num [CmC, CmInvC, Matrix.mul_apply, Fin.sum_univ_succ, Matrix.cons_val_zero,
      Matrix.cons_val_succ, Matrix.one_apply, Fin.ext_iff]

theorem hW : CmInvC * polC = WC := by
  ext i j
  fin_cases i <;> fin_cases j <;>
    norm_num [CmInvC, polC, WC, Matrix.mul_apply, Fin.sum_univ_succ, Matrix.cons_val_zero,
      Matrix.cons_val_succ, Fin.ext_iff]

theorem hMX : MC * XC = 1 := by
  ext i j
  fin_cases i <;> fin_cases j <;>
    norm_num [MC, XC, Matrix.mul_apply, Fin.sum_univ_succ, Matrix.cons_val_zero,
      Matrix.cons_val_succ, Matrix.one_apply, Fin.ext_iff]

theorem hpolX : polC * XC = polXC := by
  ext i j
  fin_cases i <;> fin_cases j <;>
    norm_num [polC, XC, polXC, Matrix.mul_apply, Fin.sum_univ_succ, Matrix.cons_val_zero,
      Matrix.cons_val_succ, Fin.ext_iff]

theorem hA0BW (g : ℝ) : (A0C + g • B0C) * WC = KC := by
  ext i j
  fin_cases i <;> fin_cases j <;>
    (norm_num [A0C, B0C, WC, KC, Matrix.mul_apply, Fin.sum_univ_succ, Matrix.add_apply,
      Matrix.smul_apply, Matrix.cons_val_zero, Matrix.cons_val_succ, Fin.ext_iff]
     try ring)
theorem hpol : CfC - CmC = polC := by
  ext i j
  fin_cases i <;> fin_cases j <;>
    norm_num [CfC, CmC, polC, Matrix.sub_apply]

theorem hMassemble :
    (1/2 : ℝ) • (1 : M66 ℝ) + (1 - 1/2 : ℝ) • ((1 : M66 ℝ) + KC) = MC := by
  ext i j
  fin_cases i <;> fin_cases j <;>
    norm_num [KC, MC, Matrix.add_apply, Matrix.smul_apply, Matrix.one_apply, Fin.ext_iff]

theorem hE : CmC + (1/2 : ℝ) • polXC = EC := by
  ext i j
  fin_cases i <;> fin_cases j <;>
    norm_num [CmC, polXC, EC, Matrix.add_apply, Matrix.smul_apply]
theorem eff66_eval :
    get_effective_stiffness_single (Real.sqrt 2) gshape (1/4) CmC CfC (1/2)
      (Real.sqrt (5/2)) = EC := by
  have hCm : minv CmC = CmInvC := by
    rw [minv_eq_inv]
    exact Matrix.inv_eq_right_inv hCmInv
  have hMinv : minv MC = XC := by
    rw [minv_eq_inv]
    exact Matrix.inv_eq_right_inv hMX
  have ha2 : (Real.sqrt (5/2) : ℝ) ^ 2 = (5/2 : ℝ) := Real.sq_sqrt (by norm_num)
  simp only [get_effective_stiffness_single, get_eshelby66, tensor_product]
  rw [ha2, hCm, hpol, hW, S66_decomp, hA0BW, hMassemble, hMinv, hpolX]
  exact hE
theorem T1122 : mandel2tensor (Real.sqrt 2) EC 1 1 2 2 = EC 1 2 := by
  simp +decide [mandel2tensor, Fin.sum_univ_six, mbasis, diade, te1, te2, te3,
    Matrix.smul_apply, Matrix.add_apply]

theorem T2211 : mandel2tensor (Real.sqrt 2) EC 2 2 1 1 = EC 2 1 := by
  simp +decide [mandel2tensor, Fin.sum_univ_six, mbasis, diade, te1, te2, te3,
    Matrix.smul_apply, Matrix.add_apply]

theorem EC12 : EC 1 2 = -36/61 := by
  norm_num [EC, Matrix.cons_val_one, Matrix.cons_val_two, Matrix.head_cons]

theorem EC21 : EC 2 1 = -27/122 := by
  norm_num [EC, Matrix.cons_val_one, Matrix.cons_val_two, Matrix.head_cons]

theorem sq_le_frobSq (X : T4 ℝ) (i j k l : Fin 3) : (X i j k l) ^ 2 ≤ frobSq X := by
  unfold frobSq
  calc (X i j k l) ^ 2 ≤ ∑ l', (X i j k l') ^ 2 := by
        exact Finset.single_le_sum (fun x _ => sq_nonneg (X i j k x)) (Finset.mem_univ l)
    _ ≤ ∑ k', ∑ l', (X i j k' l') ^ 2 := by
        exact Finset.single_le_sum
          (fun x _ => Finset.sum_nonneg fun y _ => sq_nonneg (X i j x y))
          (Finset.mem_univ k)
    _ ≤ ∑ j', ∑ k', ∑ l', (X i j' k' l') ^ 2 := by
        exact Finset.single_le_sum
          (fun x _ => Finset.sum_nonneg fun y _ =>
            Finset.sum_nonneg fun z _ => sq_nonneg (X i x y z))
          (Finset.mem_univ j)
    _ ≤ ∑ i', ∑ j', ∑ k', ∑ l', (X i' j' k' l') ^ 2 := by
        exact Finset.single_le_sum
          (fun x _ => Finset.sum_nonneg fun y _ =>
            Finset.sum_nonneg fun z _ => Finset.sum_nonneg fun w _ => sq_nonneg (X x y z w))
          (Finset.mem_univ i)

theorem C8_major_residual_large :
    ¬ (frobSq (fun i j k l =>
        mandel2tensor (Real.sqrt 2) (get_effective_stiffness_single (Real.sqrt 2)
          gshape (1/4) CmC CfC (1/2) (Real.sqrt (5/2))) i j k l -
        mandel2tensor (Real.sqrt 2) (get_effective_stiffness_single (Real.sqrt 2)
          gshape (1/4) CmC CfC (1/2) (Real.sqrt (5/2))) k l i j) < (1/1000 : ℝ) ^ 2) := by
  intro hlt
  have hb := sq_le_frobSq (fun i j k l =>
      mandel2tensor (Real.sqrt 2) (get_effective_stiffness_single (Real.sqrt 2)
        gshape (1/4) CmC CfC (1/2) (Real.sqrt (5/2))) i j k l -
      mandel2tensor (Real.sqrt 2) (get_effective_stiffness_single (Real.sqrt 2)
        gshape (1/4) CmC CfC (1/2) (Real.sqrt (5/2))) k l i j) 1 1 2 2
  rw [eff66_eval] at hb hlt
  simp only [T1122, T2211, EC12, EC21] at hb
  norm_num at hb
  linarith

theorem hCmT : CmC.transpose = CmC := by
  ext i j
  fin_cases i <;> fin_cases j <;> norm_num [CmC, Matrix.transpose_apply]

theorem hCfT : CfC.transpose = CfC := by
  ext i j
  fin_cases i <;> fin_cases j <;> norm_num [CfC, Matrix.transpose_apply]

theorem hMexpr :
    (1/2 : ℝ) • (1 : M66 ℝ) + (1 - 1/2 : ℝ) •
      ((1 : M66 ℝ) + tensor_product (get_eshelby66 (Real.sqrt 2) gshape (1/4) (Real.sqrt (5/2)))
        (tensor_product (minv CmC) (CfC - CmC))) = MC := by
  have hCm : minv CmC = CmInvC := by
    rw [minv_eq_inv]
    exact Matrix.inv_eq_right_inv hCmInv
  have ha2 : (Real.sqrt (5/2) : ℝ) ^ 2 = (5/2 : ℝ) := Real.sq_sqrt (by norm_num)
  simp only [get_eshelby66, tensor_product]
  rw [ha2, hCm, hpol, hW, S66_decomp, hA0BW]
  exact hMassemble

theorem C8_symmetry_counterexample :
    CmC.transpose = CmC ∧ CfC.transpose = CfC ∧
    ((0 : ℝ) < 1/2 ∧ (1/2 : ℝ) < 1) ∧ 1 < Real.sqrt (5/2) ∧
    IsUnit CmC.det ∧
    IsUnit ((1/2 : ℝ) • (1 : M66 ℝ) + (1 - 1/2 : ℝ) •
      ((1 : M66 ℝ) + tensor_product (get_eshelby66 (Real.sqrt 2) gshape (1/4) (Real.sqrt (5/2)))
        (tensor_product (minv CmC) (CfC - CmC)))).det ∧
    ¬ (frobSq (fun i j k l =>
        mandel2tensor (Real.sqrt 2) (get_effective_stiffness_single (Real.sqrt 2)
          gshape (1/4) CmC CfC (1/2) (Real.sqrt (5/2))) i j k l -
        mandel2tensor (Real.sqrt 2) (get_effective_stiffness_single (Real.sqrt 2)
          gshape (1/4) CmC CfC (1/2) (Real.sqrt (5/2))) k l i j) < (1/1000 : ℝ) ^ 2) := by
  refine ⟨hCmT, hCfT, by norm_num, ?_, ?_, ?_, C8_major_residual_large⟩
  · rw [show (1 : ℝ) = Real.sqrt 1 from (Real.sqrt_one).symm]
    exact Real.sqrt_lt_sqrt (by norm_num) (by norm_num)
  · exact Matrix.isUnit_det_of_right_inverse hCmInv
  · rw [hMexpr]
    exact Matrix.isUnit_det_of_right_inverse hMX

theorem mbasis_symm (rt2 : F) (I : Fin 6) (i j : Fin 3) :
    mbasis rt2 I i j = mbasis rt2 I j i := by
  fin_cases I <;> fin_cases i <;> fin_cases j <;>
    (simp +decide [mbasis, diade, te1, te2, te3, Matrix.smul_apply, Matrix.add_apply]
     try ring)

/-- C8 (amended): for every reduced stiffness, the full-form tensor built by
`mandel2tensor` (in particular the stored full-form effective stiffness)
satisfies both minor symmetries exactly, and the orientation average of any
tensor over a symmetric `N2` and a fully symmetric `N4` satisfies left
minor, right minor and major symmetry exactly (residuals 0, hence below
1e-3); major symmetry of the Mori-Tanaka effective stiffness itself is not
guaranteed (see the counterexample). -/
theorem C8_amended_symmetries :
    (∀ (M : M66 ℝ) (i j k l : Fin 3),
        mandel2tensor (Real.sqrt 2) M i j k l = mandel2tensor (Real.sqrt 2) M j i k l ∧
        mandel2tensor (Real.sqrt 2) M i j k l = mandel2tensor (Real.sqrt 2) M i j l k) ∧
    (∀ (C : T4 ℝ) (N2 : Matrix (Fin 3) (Fin 3) ℝ) (N4 : T4 ℝ),
      (∀ p q, N2 p q = N2 q p) →
      (∀ p q r t, N4 p q r t = N4 q p r t ∧ N4 p q r t = N4 p q t r ∧
        N4 p q r t = N4 r t p q) →
      ∀ i j k l,
        get_orientation_average C N2 N4 i j k l =
          get_orientation_average C N2 N4 j i k l ∧
        get_orientation_average C N2 N4 i j k l =
          get_orientation_average C N2 N4 i j l k ∧
        get_orientation_average C N2 N4 i j k l =
          get_orientation_average C N2 N4 k l i j) := by
  constructor
  · intro M i j k l
    constructor
    · unfold mandel2tensor
      exact Finset.sum_congr rfl fun I _ => Finset.sum_congr rfl fun J _ => by
        rw [mbasis_symm (Real.sqrt 2) I i j]
    · unfold mandel2tensor
      exact Finset.sum_congr rfl fun I _ => Finset.sum_congr rfl fun J _ => by
        rw [mbasis_symm (Real.sqrt 2) J k l]
  · intro C N2 N4 hN2 hN4 i j k l
    refine ⟨?_, ?_, ?_⟩
    · simp only [get_orientation_average, (hN4 j i k l).1, hN2 j i, hN2 k i, hN2 k j,
        hN2 l i, hN2 l j, hN2 l k, kron_comm j i, kron_comm k i, kron_comm k j,
        kron_comm l i, kron_comm l j, kron_comm l k]
      ring
    · simp only [get_orientation_average, (hN4 i j l k).2.1, hN2 j i, hN2 k i, hN2 k j,
        hN2 l i, hN2 l j, hN2 l k, kron_comm j i, kron_comm k i, kron_comm k j,
        kron_comm l i, kron_comm l j, kron_comm l k]
      ring
    · simp only [get_orientation_average, (hN4 k l i j).2.2, hN2 j i, hN2 k i, hN2 k j,
        hN2 l i, hN2 l j, hN2 l k, kron_comm j i, kron_comm k i, kron_comm k j,
        kron_comm l i, kron_comm l j, kron_comm l k]
      ring

/-- Witness for the amended C8 at the aligned orientation tensors. -/
theorem C8_amended_symmetries_witness :
    (∀ p q, (alignedN2 : Matrix (Fin 3) (Fin 3) ℝ) p q = alignedN2 q p) ∧
    (∀ p q r t, (alignedN4 : T4 ℝ) p q r t = alignedN4 q p r t ∧
      (alignedN4 : T4 ℝ) p q r t = alignedN4 p q t r ∧
      (alignedN4 : T4 ℝ) p q r t = alignedN4 r t p q) ∧
    (get_orientation_average (fun _ _ _ _ => (1 : ℝ)) alignedN2 alignedN4 0 1 2 0 =
        get_orientation_average (fun _ _ _ _ => (1 : ℝ)) alignedN2 alignedN4 1 0 2 0 ∧
      get_orientation_average (fun _ _ _ _ => (1 : ℝ)) alignedN2 alignedN4 0 1 2 0 =
        get_orientation_average (fun _ _ _ _ => (1 : ℝ)) alignedN2 alignedN4 0 1 0 2 ∧
      get_orientation_average (fun _ _ _ _ => (1 : ℝ)) alignedN2 alignedN4 0 1 2 0 =
        get_orientation_average (fun _ _ _ _ => (1 : ℝ)) alignedN2 alignedN4 2 0 0 1) := by
  have h2 : ∀ p q, (alignedN2 : Matrix (Fin 3) (Fin 3) ℝ) p q = alignedN2 q p := by
    intro p q
    simp only [alignedN2]
    ring
  have h4 : ∀ p q r t, (alignedN4 : T4 ℝ) p q r t = alignedN4 q p r t ∧
      (alignedN4 : T4 ℝ) p q r t = alignedN4 p q t r ∧
      (alignedN4 : T4 ℝ) p q r t = alignedN4 r t p q := by
    intro p q r t
    refine ⟨?_, ?_, ?_⟩ <;> (simp only [alignedN4]; ring)
  exact ⟨h2, h4, C8_amended_symmetries.2 (fun _ _ _ _ => 1) alignedN2 alignedN4 h2 h4 0 1 2 0⟩

/-- Witness for C4: the zero-pattern clause evaluated at the concrete
off-pattern entry (0,1,2,0). -/
theorem C4_eshelby_components_witness :
    ((0, 1, 2, 0) : Fin 3 × Fin 3 × Fin 3 × Fin 3) ∉
      ([(0,0,0,0), (1,1,1,1), (2,2,2,2), (1,1,2,2), (2,2,1,1),
        (1,1,0,0), (2,2,0,0), (0,0,1,1), (0,0,2,2), (1,2,1,2),
        (2,1,2,1), (0,1,0,1), (0,2,0,2)] :
          List (Fin 3 × Fin 3 × Fin 3 × Fin 3)) ∧
    eshelbyFull 0 ((2 : ℝ) ^ 2) (gshape 2) 0 1 2 0 = 0 :=
  ⟨by decide,
    (C4_eshelby_components 0 2).2.2.2.2.2.2.2.2.2.2.2.2.2 0 1 2 0 (by decide)⟩

/-- Witness for C7: mismatched list lengths produce no homogenizer. -/
theorem C7_length_mismatch_guard_witness :
    ¬(([] : List (M66 ℝ)).length = [(1 : ℝ)].length ∧
        [(1 : ℝ)].length = ([] : List ℝ).length) ∧
    init_mori_tanaka_multi (Real.sqrt 2) gshape 0 (1 : M66 ℝ) [] [(1 : ℝ)] [] = none :=
  ⟨by decide, (C7_length_mismatch_guard 0 1 [] [1] []).mpr (by decide)⟩
